import Mathlib

/-!
Verification development for the voice interaction controller
(`src/services/voiceController.ts`).

The embedding models transcripts as lists of characters, the command
parser (`processVoiceCommand`) as a pure intent function, the backoff
delay computation over the rationals, and the controller itself as an
explicit event-step state machine producing a list of observable
effects per event.

Modelling decisions (documented once here):
* A recognition session's asynchronous `onend` is delivered as a
  separate `recEnd` event; `recognition.stop()` / `recognition.start()`
  only emit effects and flip the session flags.  `recognition.onstart`
  is folded into a successful `start()` (it sets `isListening` and
  emits the listening status), since no claim depends on the gap
  between `start()` and `onstart`.
* `speechSynthesis.cancel()` delivers the terminal "interrupted" event
  to the current utterance's handler synchronously, as the spec's
  arbiter contract describes ("resolving that caller's wait without
  waiting for the new text").
* Live timer handles are tracked as a list (`liveTimers`) next to the
  stored handle field (`restartTimer`), so the "at most one pending
  timer" property is a real invariant rather than true by type.
-/

namespace Argus

/-! ## String utilities (JS `includes`, `\b` word-boundary regex, trim/lower) -/

/-- JS regex word character for the purposes of the controller's
`\b(...)\b` patterns: ASCII letter, digit, or underscore. -/
def isWordChar (c : Char) : Bool := c.isAlphanum || c == ('_')

/-- The first list is a leading segment of the second
(character-by-character equality). -/
def firstMatches : List Char → List Char → Bool
  | [], _ => true
  | _ :: _, [] => false
  | a :: as, b :: bs => a == b && firstMatches as bs

/-- JS `haystack.includes(needle)`: the needle occurs contiguously
somewhere in the haystack. -/
def containsSub (needle : List Char) : List Char → Bool
  | [] => firstMatches needle []
  | c :: t => firstMatches needle (c :: t) || containsSub needle t

/-- The word occurs at the very front of the remaining input and is
followed by a non-word character or the end of input (the trailing
`\b`).  All keywords in the source start and end with letters. -/
def wbFrom : List Char → List Char → Bool
  | [], [] => true
  | [], c :: _ => !isWordChar c
  | _ :: _, [] => false
  | a :: as, b :: bs => a == b && wbFrom as bs

/-- Scan for a `\b`-delimited occurrence of the word; `pre` is the
character immediately before the current position (none at the start
of the string). -/
def wbSearch (w : List Char) : Option Char → List Char → Bool
  | pre, [] =>
    ((match pre with | none => true | some c => !isWordChar c) && wbFrom w [])
  | pre, c :: t =>
    (((match pre with | none => true | some c0 => !isWordChar c0) && wbFrom w (c :: t)))
      || wbSearch w (some c) t

/-- JS `new RegExp("\\b(w)\\b").test(command)` for a single word `w`. -/
def testWB (w cmd : List Char) : Bool := wbSearch w none cmd

/-- Strip whitespace from both ends (JS `String.prototype.trim`). -/
def trimCL (l : List Char) : List Char :=
  ((l.dropWhile (fun c => c.isWhitespace)).reverse.dropWhile (fun c => c.isWhitespace)).reverse

/-- Normalisation applied to a raw transcript in `recognition.onresult`:
`transcript.toLowerCase().trim()`. -/
def normTranscript (t : String) : List Char :=
  trimCL (t.toList.map Char.toLower)

/-! ## Command parser (`processVoiceCommand`, lines 168-231) -/

/-- The two toggleable settings of the secondary table. -/
inductive SettingName
  | haptic
  | audio
deriving DecidableEq, Repr

/-- The intents the parser can dispatch. -/
inductive Intent
  | modeClose
  | navigation
  | textRead
  | settings
  | toggle (name : SettingName) (value : Bool)
  | battery
deriving DecidableEq, Repr

def closeKeywords : List (List Char) :=
  [("close").toList, ("go home").toList, ("home screen").toList, ("exit").toList,
   ("stop").toList, ("stop navigation").toList, ("stop text reader").toList]

def navigationKeywords : List (List Char) :=
  [("open navigation").toList, ("navigation").toList, ("navigate").toList]

def textReadKeywords : List (List Char) :=
  [("open text").toList, ("text read").toList, ("read text").toList, ("open reader").toList]

def settingsKeywords : List (List Char) :=
  [("open settings").toList, ("settings").toList, ("preferences").toList]

def toggleKeywords : SettingName → List (List Char)
  | SettingName.haptic => [("haptic").toList, ("haptics").toList, ("vibration").toList]
  | SettingName.audio => [("audio").toList, ("sound").toList, ("feedback").toList]

/-- Some keyword of the set occurs as a plain substring of the command. -/
def anyContains (kws : List (List Char)) (cmd : List Char) : Bool :=
  kws.any (fun w => containsSub w cmd)

/-- Some word of the set occurs with word boundaries
(the regex `\b(w1|w2|...)\b` as a boolean test). -/
def wbAny (ws : List (List Char)) (cmd : List Char) : Bool :=
  ws.any (fun w => testWB w cmd)

/-- The on-modifier regex `\b(on|enable|start)\b`. -/
def onModifier (cmd : List Char) : Bool :=
  wbAny [("on").toList, ("enable").toList, ("start").toList] cmd

/-- The off-modifier regex `\b(off|disable|stop)\b`. -/
def offModifier (cmd : List Char) : Bool :=
  wbAny [("off").toList, ("disable").toList, ("stop").toList] cmd

/-- One iteration of the toggle loop body: if the setting's keyword
regex matches, resolve the modifier; with no modifier the loop falls
through to the next setting. -/
def toggleFor (cmd : List Char) (n : SettingName) : Option Intent :=
  if wbAny (toggleKeywords n) cmd then
    if onModifier cmd then some (Intent.toggle n true)
    else if offModifier cmd then some (Intent.toggle n false)
    else none
  else none

/-- The `for (const setting of toggleableSettings)` loop: haptic first,
then audio; first returned intent wins. -/
def toggleMatch (cmd : List Char) : Option Intent :=
  match toggleFor cmd SettingName.haptic with
  | some i => some i
  | none => toggleFor cmd SettingName.audio

/-- Pure intent computation of `processVoiceCommand`: the ordered
if-chain of the source, first match returning. -/
def parseIntent (cmd : List Char) : Option Intent :=
  if anyContains closeKeywords cmd then some Intent.modeClose
  else if anyContains navigationKeywords cmd then some Intent.navigation
  else if anyContains textReadKeywords cmd then some Intent.textRead
  else if anyContains settingsKeywords cmd then some Intent.settings
  else
    match toggleMatch cmd with
    | some i => some i
    | none =>
      if containsSub (("battery").toList) cmd then some Intent.battery else none

/-- First non-`none` entry of an ordered rule-result list. -/
def firstSome : List (Option Intent) → Option Intent
  | [] => none
  | some i :: _ => some i
  | none :: rest => firstSome rest

/-- The spec's description of the parser: a first-match-wins scan of an
ordered rule table (close/home, navigation, text-read, settings,
toggles, battery), the four open/close rules and battery tested by
substring containment of any keyword in their sets, the toggle rule by
word-boundary keyword match plus an on/off modifier. -/
def prioritySpecParse (cmd : List Char) : Option Intent :=
  firstSome
    [(if anyContains closeKeywords cmd then some Intent.modeClose else none),
     (if anyContains navigationKeywords cmd then some Intent.navigation else none),
     (if anyContains textReadKeywords cmd then some Intent.textRead else none),
     (if anyContains settingsKeywords cmd then some Intent.settings else none),
     toggleMatch cmd,
     (if containsSub (("battery").toList) cmd then some Intent.battery else none)]

/-- One toggle-loop iteration as the claim words it, with the keyword
set tested by plain substring containment instead of the source's
word-boundary regex. -/
def substrToggleFor (cmd : List Char) (n : SettingName) : Option Intent :=
  if anyContains (toggleKeywords n) cmd then
    if onModifier cmd then some (Intent.toggle n true)
    else if offModifier cmd then some (Intent.toggle n false)
    else none
  else none

/-- The parser exactly as the claim states it: every rule, the toggle
rule included, tested by substring containment of any keyword in its
set. -/
def claimSubstrParse (cmd : List Char) : Option Intent :=
  if anyContains closeKeywords cmd then some Intent.modeClose
  else if anyContains navigationKeywords cmd then some Intent.navigation
  else if anyContains textReadKeywords cmd then some Intent.textRead
  else if anyContains settingsKeywords cmd then some Intent.settings
  else
    match substrToggleFor cmd SettingName.haptic with
    | some i => some i
    | none =>
      match substrToggleFor cmd SettingName.audio with
      | some i => some i
      | none =>
        if containsSub (("battery").toList) cmd then some Intent.battery else none

/-! ## Controller state machine -/

/-- What a pending `setTimeout` callback does when it fires: the 250ms
auto-restart armed by `recognition.onend`, or the backoff retry armed
by `recognition.onerror` (which additionally clears the recovery
flag). -/
inductive TimerKind
  | restart
  | backoff
deriving DecidableEq, Repr

/-- The per-call data the `speak` closure captures: the promise
identity of the call and the `wasListening` snapshot taken before
synthesis starts. -/
structure UttInfo where
  id : Nat
  wasListening : Bool
deriving DecidableEq, Repr

/-- The mutable fields of `VoiceController`, plus ghost bookkeeping:
`sessionActive` (a recognition session exists between a successful
`start()` and its terminal `onend`), `sessionErrored` (the current
session has already delivered its error event), `liveTimers` (handles
of timers armed and neither cleared nor fired), `nextTimer` and
`nextUttId` (fresh-handle counters). -/
structure VCState where
  recAvailable : Bool
  synthAvailable : Bool
  isListening : Bool
  sessionActive : Bool
  sessionErrored : Bool
  autoStart : Bool
  provideFeedback : Bool
  errorRetryCount : Nat
  isErrorRecovery : Bool
  isSpeaking : Bool
  restartTimer : Option (Nat × TimerKind)
  liveTimers : List (Nat × TimerKind)
  nextTimer : Nat
  currentUtterance : Option UttInfo
  nextUttId : Nat
deriving DecidableEq, Repr

/-- Observable effects a handler issues, in program order. -/
inductive Effect
  | recStart
  | recStop
  | recAbort
  | synthCancel
  | synthSpeak (id : Nat) (text : String)
  | status (msg : String) (listening : Bool)
  | resolve (id : Nat) (interrupted : Bool)
  | timerSet (k : TimerKind)
  | callbackNav
  | callbackTextRead
  | callbackSettings
  | callbackModeClose
  | callbackToggle (n : SettingName) (v : Bool)
  | callbackBattery
deriving DecidableEq, Repr

/-- Events driving the controller: the public operations, the
recognition capability's callbacks, a pending timer firing, and the
current utterance's natural terminal event. -/
inductive VEvent
  | extStart
  | extStop
  | extSpeak (text : String)
  | extUpdateAutoStart (b : Bool)
  | recEnd
  | recError (err : String)
  | recResult (t : Option String)
  | timerFire
  | uttTerminal
deriving DecidableEq, Repr

/-- The `if (this.restartTimer) clearTimeout(this.restartTimer)`
idiom: kill the stored handle if it is still live.  The stored field
itself is left as the source leaves it (possibly stale). -/
def clearStored (s : VCState) : VCState :=
  match s.restartTimer with
  | none => s
  | some p => { s with liveTimers := s.liveTimers.erase p }

/-- Clear the stored handle, then `this.restartTimer = setTimeout(...)`
with a fresh handle. -/
def armTimer (s : VCState) (k : TimerKind) : VCState × List Effect :=
  let s1 := clearStored s
  let p : Nat × TimerKind := (s1.nextTimer, k)
  ({ s1 with restartTimer := some p, liveTimers := p :: s1.liveTimers,
             nextTimer := s1.nextTimer + 1 },
   [Effect.timerSet k])

/-- `recognition.onerror` (lines 121-164).  `aborted` and `no-speech`
only drop the listening flag; the three fatal errors disable
`autoStart` and report a permanent status; everything else increments
the attempt counter and arms the backoff timer. -/
def onerrorHandler (s : VCState) (err : String) : VCState × List Effect :=
  let s1 := { s with isListening := false }
  if err == ("aborted") then (s1, [])
  else if err == ("no-speech") then (s1, [])
  else
    let s2 := { s1 with isErrorRecovery := true }
    if err == ("not-allowed") || err == ("service-not-allowed") then
      ({ s2 with autoStart := false },
       [Effect.status ("Microphone permission denied") false])
    else if err == ("audio-capture") then
      ({ s2 with autoStart := false },
       [Effect.status ("Microphone not available") false])
    else
      let s3 := { s2 with errorRetryCount := s2.errorRetryCount + 1 }
      let r := armTimer s3 TimerKind.backoff
      (r.1, Effect.status ("Voice connection issue. Retrying...") false :: r.2)

/-- `startListening` (lines 285-298).  Clears the stored timer; if a
capability exists and we are not listening, tries `recognition.start()`:
starting while a session is already running throws, and the catch
re-routes to the error handler with the internal `start-failed` signal
unless the recovery flag is set.  A successful start is folded together
with the `onstart` callback it triggers. -/
def startListening (s : VCState) : VCState × List Effect :=
  let s1 := clearStored s
  if s1.recAvailable && !s1.isListening then
    if s1.sessionActive then
      if !s1.isErrorRecovery then onerrorHandler s1 ("start-failed") else (s1, [])
    else
      ({ s1 with isListening := true, sessionActive := true },
       [Effect.recStart, Effect.status ("Listening...") true])
  else (s1, [])

/-- Body of the utterance `onend`/`onerror` closure (lines 250-270),
run after the caller has nulled `currentUtterance`: if the snapshot
says recognition was active, drop the speaking flag, clear any pending
timer and re-issue start; finally resolve this call's promise. -/
def uttRun (s : VCState) (u : UttInfo) (interrupted : Bool) : VCState × List Effect :=
  if u.wasListening then
    let s1 := clearStored { s with isSpeaking := false }
    let r := startListening s1
    (r.1, r.2 ++ [Effect.resolve u.id interrupted])
  else (s, [Effect.resolve u.id interrupted])

/-- `speechSynthesis.cancel()`: if an utterance is in flight, its
handler receives the terminal interrupted event synchronously. -/
def cancelSynth (s : VCState) : VCState × List Effect :=
  match s.currentUtterance with
  | none => (s, [Effect.synthCancel])
  | some u =>
    let r := uttRun { s with currentUtterance := none } u true
    (r.1, Effect.synthCancel :: r.2)

/-- `speak(text)` (lines 233-275) for a call whose promise identity is
`id`.  Feedback disabled, empty text or missing synthesis resolve
immediately; otherwise the pre-cancel snapshot decides whether
recognition is suspended, and the new utterance becomes current. -/
def speakHandler (s : VCState) (id : Nat) (text : String) : VCState × List Effect :=
  if !s.synthAvailable || !s.provideFeedback || text == ("") then
    (s, [Effect.resolve id false])
  else
    let wasL := s.isListening && s.autoStart
    let r1 := cancelSynth s
    let r2 := if wasL then ({ r1.1 with isSpeaking := true }, [Effect.recStop])
              else (r1.1, ([] : List Effect))
    ({ r2.1 with currentUtterance := some { id := id, wasListening := wasL } },
     r1.2 ++ r2.2 ++ [Effect.synthSpeak id text])

/-- A `speak` call from the controller itself or from outside,
allocating the promise identity. -/
def speakAlloc (s : VCState) (text : String) : VCState × List Effect :=
  speakHandler { s with nextUttId := s.nextUttId + 1 } s.nextUttId text

/-- `stopSpeaking` (lines 277-283). -/
def stopSpeakingRun (s : VCState) : VCState × List Effect :=
  if s.synthAvailable then cancelSynth s else (s, [])

/-- Return value of the default `onCheckBattery` callback (line 55);
the dispatch only needs some non-empty string. -/
def batteryStatusText : String := "Battery status check not implemented."

/-- Effectful part of `processVoiceCommand` once the intent is known:
one application callback plus, when feedback is enabled, one spoken
confirmation (the close branch first interrupts any speech). -/
def dispatchIntent (s : VCState) (i : Intent) : VCState × List Effect :=
  match i with
  | Intent.modeClose =>
    let r1 := stopSpeakingRun s
    if r1.1.provideFeedback then
      let r2 := speakAlloc r1.1 ("Returning to home screen")
      (r2.1, r1.2 ++ [Effect.callbackModeClose] ++ r2.2)
    else (r1.1, r1.2 ++ [Effect.callbackModeClose])
  | Intent.navigation =>
    if s.provideFeedback then
      let r := speakAlloc s ("Opening Navigation")
      (r.1, Effect.callbackNav :: r.2)
    else (s, [Effect.callbackNav])
  | Intent.textRead =>
    if s.provideFeedback then
      let r := speakAlloc s ("Opening Text Reader")
      (r.1, Effect.callbackTextRead :: r.2)
    else (s, [Effect.callbackTextRead])
  | Intent.settings =>
    if s.provideFeedback then
      let r := speakAlloc s ("Opening Settings")
      (r.1, Effect.callbackSettings :: r.2)
    else (s, [Effect.callbackSettings])
  | Intent.toggle n v =>
    let confirmation :=
      match n, v with
      | SettingName.haptic, true => ("Haptic enabled.")
      | SettingName.haptic, false => ("Haptic disabled.")
      | SettingName.audio, true => ("Audio enabled.")
      | SettingName.audio, false => ("Audio disabled.")
    if s.provideFeedback then
      let r := speakAlloc s confirmation
      (r.1, Effect.callbackToggle n v :: r.2)
    else (s, [Effect.callbackToggle n v])
  | Intent.battery =>
    if s.provideFeedback then
      let r := speakAlloc s batteryStatusText
      (r.1, Effect.callbackBattery :: r.2)
    else (s, [Effect.callbackBattery])

/-- `recognition.onresult` (lines 108-119): the attempt counter is
reset first; an event with no usable results or a blank transcript is
then dropped; otherwise the heard status is reported and the command
processed. -/
def onresultHandler (s : VCState) (t : Option String) : VCState × List Effect :=
  let s0 := { s with errorRetryCount := 0 }
  match t with
  | none => (s0, [])
  | some raw =>
    let tr := normTranscript raw
    if tr.isEmpty then (s0, [])
    else
      let heard := Effect.status (("Heard: ") ++ String.mk tr) true
      match parseIntent tr with
      | none => (s0, [heard])
      | some i =>
        let r := dispatchIntent s0 i
        (r.1, heard :: r.2)

/-- `recognition.onend` (lines 94-106). -/
def onendHandler (s : VCState) : VCState × List Effect :=
  let s1 := { s with isListening := false, sessionActive := false,
                     sessionErrored := false }
  if s1.isErrorRecovery || s1.isSpeaking then (s1, [])
  else if s1.autoStart then armTimer s1 TimerKind.restart
  else (s1, [Effect.status ("Voice disabled") false])

/-- `stopListening` (lines 300-307). -/
def stopListeningRun (s : VCState) : VCState × List Effect :=
  let s1 := clearStored s
  let e1 := if s1.recAvailable then [Effect.recAbort] else []
  ({ s1 with isListening := false },
   e1 ++ [Effect.status ("Voice paused") false])

/-- One event of the controller's single-threaded event loop. -/
def step (s : VCState) : VEvent → VCState × List Effect
  | VEvent.extStart => startListening s
  | VEvent.extStop => stopListeningRun s
  | VEvent.extSpeak t => speakAlloc s t
  | VEvent.extUpdateAutoStart b => ({ s with autoStart := b }, [])
  | VEvent.recEnd => onendHandler s
  | VEvent.recError err => onerrorHandler { s with sessionErrored := true } err
  | VEvent.recResult t => onresultHandler s t
  | VEvent.timerFire =>
    match s.liveTimers with
    | [] => (s, [])
    | p :: rest =>
      let s1 := { s with liveTimers := rest }
      match p.2 with
      | TimerKind.restart => startListening s1
      | TimerKind.backoff => startListening { s1 with isErrorRecovery := false }
  | VEvent.uttTerminal =>
    match s.currentUtterance with
    | none => (s, [])
    | some u => uttRun { s with currentUtterance := none } u false

/-- Final state after a sequence of events. -/
def runState : VCState → List VEvent → VCState
  | s, [] => s
  | s, e :: es => runState (step s e).1 es

/-- Concatenated effect trace of a sequence of events. -/
def runEff : VCState → List VEvent → List Effect
  | _, [] => []
  | s, e :: es => (step s e).2 ++ runEff (step s e).1 es

/-- Which events can physically occur in a given state: recognition
callbacks need a session (results and errors one that has not already
errored), a timer can fire only if one is live, an utterance terminal
event needs a current utterance; public operations are always
available. -/
def admissible (s : VCState) : VEvent → Bool
  | VEvent.recEnd => s.sessionActive
  | VEvent.recError _ => s.sessionActive && !s.sessionErrored
  | VEvent.recResult _ => s.sessionActive && !s.sessionErrored
  | VEvent.timerFire => !s.liveTimers.isEmpty
  | VEvent.uttTerminal => s.currentUtterance.isSome
  | _ => true

/-- Every event of the sequence is admissible in the state it meets. -/
def admSeq : VCState → List VEvent → Bool
  | _, [] => true
  | s, e :: es => admissible s e && admSeq (step s e).1 es

/-- Events not issued by the host application. -/
def isInternal : VEvent → Bool
  | VEvent.extStart => false
  | VEvent.extStop => false
  | VEvent.extSpeak _ => false
  | VEvent.extUpdateAutoStart _ => false
  | _ => true

/-- Number of `recognition.start()` calls in a trace. -/
def countStarts (es : List Effect) : Nat :=
  es.countP (fun e => e == Effect.recStart)

/-- Controller freshly constructed with the default options
(`autoStart`, feedback and both capabilities available), before
`init` runs. -/
def baseState : VCState :=
  { recAvailable := true, synthAvailable := true, isListening := false,
    sessionActive := false, sessionErrored := false, autoStart := true,
    provideFeedback := true, errorRetryCount := 0, isErrorRecovery := false,
    isSpeaking := false, restartTimer := none, liveTimers := [],
    nextTimer := 1, currentUtterance := none, nextUttId := 0 }

/-- State after the constructor's `init` issued the initial start:
recognition is active. -/
def initState : VCState := (startListening baseState).1

/-- Backoff delay of `recognition.onerror` (lines 151-154) for attempt
counter `n` (already incremented, so `n ≥ 1` on the first failure) and
jitter `j = Math.random() * 250`. -/
def errorRetryDelay (n : Nat) (j : ℚ) : ℚ :=
  min 30000 (2 ^ n * 500) + j

/-- At most one timer handle is live, and a live handle is the stored
one. -/
def timerInv (s : VCState) : Prop :=
  s.liveTimers = [] ∨ ∃ p, s.liveTimers = [p] ∧ s.restartTimer = some p

/-- State of a controller permanently disabled by a fatal error: no
automatic restart source remains armed. -/
def disabledInv (s : VCState) : Prop :=
  s.autoStart = false ∧ s.liveTimers = [] ∧ s.isListening = false ∧
  (s.currentUtterance.all fun u => !u.wasListening) = true ∧
  (!s.sessionActive || s.sessionErrored) = true

/-- The three fatal recognition errors. -/
def fatalErr (e : String) : Bool :=
  e == ("not-allowed") || e == ("service-not-allowed") || e == ("audio-capture")

/-- The two ignored recognition errors. -/
def ignoredErr (e : String) : Bool :=
  e == ("aborted") || e == ("no-speech")

/-- Recognition-result events (the only events running `onresult`). -/
def isResultEv : VEvent → Bool
  | VEvent.recResult _ => true
  | _ => false

/-! ## Helper lemmas -/

@[simp] lemma clearStored_recAvailable (s : VCState) :
    (clearStored s).recAvailable = s.recAvailable := by
  unfold clearStored; split <;> rfl

@[simp] lemma clearStored_synthAvailable (s : VCState) :
    (clearStored s).synthAvailable = s.synthAvailable := by
  unfold clearStored; split <;> rfl

@[simp] lemma clearStored_isListening (s : VCState) :
    (clearStored s).isListening = s.isListening := by
  unfold clearStored; split <;> rfl

@[simp] lemma clearStored_sessionActive (s : VCState) :
    (clearStored s).sessionActive = s.sessionActive := by
  unfold clearStored; split <;> rfl

@[simp] lemma clearStored_sessionErrored (s : VCState) :
    (clearStored s).sessionErrored = s.sessionErrored := by
  unfold clearStored; split <;> rfl

@[simp] lemma clearStored_autoStart (s : VCState) :
    (clearStored s).autoStart = s.autoStart := by
  unfold clearStored; split <;> rfl

@[simp] lemma clearStored_provideFeedback (s : VCState) :
    (clearStored s).provideFeedback = s.provideFeedback := by
  unfold clearStored; split <;> rfl

@[simp] lemma clearStored_errorRetryCount (s : VCState) :
    (clearStored s).errorRetryCount = s.errorRetryCount := by
  unfold clearStored; split <;> rfl

@[simp] lemma clearStored_isErrorRecovery (s : VCState) :
    (clearStored s).isErrorRecovery = s.isErrorRecovery := by
  unfold clearStored; split <;> rfl

@[simp] lemma clearStored_isSpeaking (s : VCState) :
    (clearStored s).isSpeaking = s.isSpeaking := by
  unfold clearStored; split <;> rfl

@[simp] lemma clearStored_restartTimer (s : VCState) :
    (clearStored s).restartTimer = s.restartTimer := by
  unfold clearStored; split <;> rfl

@[simp] lemma clearStored_nextTimer (s : VCState) :
    (clearStored s).nextTimer = s.nextTimer := by
  unfold clearStored; split <;> rfl

@[simp] lemma clearStored_currentUtterance (s : VCState) :
    (clearStored s).currentUtterance = s.currentUtterance := by
  unfold clearStored; split <;> rfl

@[simp] lemma clearStored_nextUttId (s : VCState) :
    (clearStored s).nextUttId = s.nextUttId := by
  unfold clearStored; split <;> rfl

lemma clearStored_live_of_inv (s : VCState) (h : timerInv s) :
    (clearStored s).liveTimers = [] := by
  rcases h with h | ⟨p, hl, hr⟩
  · unfold clearStored; split <;> simp [h]
  · simp [clearStored, hr, hl]

/-! ## Claim C3 -/

/-- C3: for every recoverable recognition error with attempt counter
`n ≥ 1` and jitter `j ∈ [0, 250)`, the computed backoff delay lies in
`[min(30000, 500·2^n), min(30000, 500·2^n) + 250)`. -/
theorem backoff_delay_in_interval (n : Nat) (j : ℚ)
    (hn : 1 ≤ n) (hj0 : 0 ≤ j) (hj : j < 250) :
    min 30000 (500 * 2 ^ n) ≤ errorRetryDelay n j ∧
    errorRetryDelay n j < min 30000 (500 * 2 ^ n) + 250 := by
  unfold errorRetryDelay
  rw [mul_comm (500 : ℚ) (2 ^ n)]
  constructor <;> linarith

/-- Witness: the backoff bounds at `n = 1`, `j = 100`. -/
theorem backoff_delay_in_interval_witness :
    (1 ≤ 1 ∧ (0 : ℚ) ≤ 100 ∧ (100 : ℚ) < 250) ∧
    (min 30000 (500 * 2 ^ 1) ≤ errorRetryDelay 1 100 ∧
     errorRetryDelay 1 100 < min 30000 (500 * 2 ^ 1) + 250) :=
  ⟨⟨le_refl 1, by norm_num, by norm_num⟩,
   backoff_delay_in_interval 1 100 (le_refl 1) (by norm_num) (by norm_num)⟩

/-! ## Claim C6 -/

/-- C6: `speak("")`, and `speak(x)` with feedback disabled, resolve
immediately with no side effects: the state is untouched and the only
effect is this call's own resolution (no utterance, no cancel, no
suspend or resume of recognition). -/
theorem speak_empty_or_no_feedback_noop :
    (∀ (s : VCState) (id : Nat),
        speakHandler s id ("") = (s, [Effect.resolve id false])) ∧
    (∀ (s : VCState) (id : Nat) (x : String), s.provideFeedback = false →
        speakHandler s id x = (s, [Effect.resolve id false])) := by
  constructor
  · intro s id; simp [speakHandler]
  · intro s id x h; simp [speakHandler, h]

/-- Witness: `speak("hi")` on a state with feedback disabled. -/
theorem speak_empty_or_no_feedback_noop_witness :
    ({ baseState with provideFeedback := false } : VCState).provideFeedback = false ∧
    speakHandler { baseState with provideFeedback := false } 5 ("hi") =
      ({ baseState with provideFeedback := false }, [Effect.resolve 5 false]) :=
  ⟨rfl, speak_empty_or_no_feedback_noop.2 _ 5 ("hi") rfl⟩

/-! ## Claim C9 -/

/-- C9: `stopListening` clears any pending timer, aborts the
recognition capability when one exists, emits the paused status, and
leaves `autoStart` (and the rest of the configuration and the retry
counter) unchanged. -/
theorem stop_clears_aborts_pauses (s : VCState) (h : timerInv s) :
    (stopListeningRun s).1.liveTimers = [] ∧
    (stopListeningRun s).1.isListening = false ∧
    (stopListeningRun s).1.autoStart = s.autoStart ∧
    (stopListeningRun s).1.provideFeedback = s.provideFeedback ∧
    (stopListeningRun s).1.errorRetryCount = s.errorRetryCount ∧
    (stopListeningRun s).2 =
      (if s.recAvailable then [Effect.recAbort] else [])
        ++ [Effect.status ("Voice paused") false] := by
  have hl := clearStored_live_of_inv s h
  unfold stopListeningRun
  refine ⟨hl, rfl, by simp, by simp, by simp, by simp⟩

/-- Witness: `stopListening` on the freshly started controller. -/
theorem stop_clears_aborts_pauses_witness :
    timerInv initState ∧
    (stopListeningRun initState).1.liveTimers = [] ∧
    (stopListeningRun initState).1.autoStart = initState.autoStart :=
  ⟨Or.inl rfl,
   (stop_clears_aborts_pauses initState (Or.inl rfl)).1,
   (stop_clears_aborts_pauses initState (Or.inl rfl)).2.2.1⟩

/-! ## Parser claims -/

lemma toggleFor_some (cmd : List Char) (n : SettingName) (i : Intent)
    (h : toggleFor cmd n = some i) :
    wbAny (toggleKeywords n) cmd = true ∧
    (onModifier cmd || offModifier cmd) = true ∧
    (i = Intent.toggle n (onModifier cmd)) := by
  unfold toggleFor at h
  split_ifs at h with h1 h2 h3 <;> simp_all

lemma toggleMatch_some (cmd : List Char) (i : Intent)
    (h : toggleMatch cmd = some i) :
    toggleFor cmd SettingName.haptic = some i ∨
    toggleFor cmd SettingName.audio = some i := by
  unfold toggleMatch at h
  split at h
  · rename_i i0 heq
    injection h with h
    subst h
    exact Or.inl heq
  · exact Or.inr h

lemma parseIntent_toggle (cmd : List Char) (n : SettingName) (v : Bool)
    (h : parseIntent cmd = some (Intent.toggle n v)) :
    toggleMatch cmd = some (Intent.toggle n v) := by
  unfold parseIntent at h
  split_ifs at h with h1 h2 h3 h4 h5 <;>
    first
      | simp at h
      | (cases hm : toggleMatch cmd <;> rw [hm] at h <;> simp_all)

/-- C8: a toggle intent is dispatched only when a word-boundary match
of that setting's keyword set and an on/off modifier both occur in the
transcript; `"turn haptic off"` yields the haptic-off toggle, while
`"haptic"` alone yields no intent at all. -/
theorem toggle_requires_keyword_and_modifier :
    (∀ (cmd : List Char) (n : SettingName) (v : Bool),
        parseIntent cmd = some (Intent.toggle n v) →
        wbAny (toggleKeywords n) cmd = true ∧
        (onModifier cmd || offModifier cmd) = true ∧
        v = onModifier cmd) ∧
    parseIntent (("turn haptic off").toList) =
      some (Intent.toggle SettingName.haptic false) ∧
    parseIntent (("haptic").toList) = none := by
  refine ⟨?_, by decide, by decide⟩
  intro cmd n v h
  have hm := parseIntent_toggle cmd n v h
  rcases toggleMatch_some cmd _ hm with hf | hf <;>
    obtain ⟨ha, hb, hc⟩ := toggleFor_some cmd _ _ hf <;>
    injection hc with hn hv <;>
    subst hn <;> subst hv <;>
    exact ⟨ha, hb, rfl⟩

/-- Witness for C8 at the transcript of the claim. -/
theorem toggle_requires_keyword_and_modifier_witness :
    parseIntent (("turn haptic off").toList) =
      some (Intent.toggle SettingName.haptic false) ∧
    wbAny (toggleKeywords SettingName.haptic) (("turn haptic off").toList) = true ∧
    (onModifier (("turn haptic off").toList)
      || offModifier (("turn haptic off").toList)) = true :=
  ⟨toggle_requires_keyword_and_modifier.2.1,
   (toggle_requires_keyword_and_modifier.1 _ _ _
      toggle_requires_keyword_and_modifier.2.1).1,
   (toggle_requires_keyword_and_modifier.1 _ _ _
      toggle_requires_keyword_and_modifier.2.1).2.1⟩

/-- C10: the close/home keyword set contains the words stop and exit,
and the close rule is checked first, so every transcript containing
the substring stop dispatches the mode-close intent and never a toggle
intent, even though stop also matches the off-modifier pattern. -/
theorem stop_always_closes (cmd : List Char)
    (h : containsSub (("stop").toList) cmd = true) :
    parseIntent cmd = some Intent.modeClose ∧
    (∀ n v, parseIntent cmd ≠ some (Intent.toggle n v)) ∧
    ("stop").toList ∈ closeKeywords ∧
    ("exit").toList ∈ closeKeywords ∧
    offModifier (("stop haptic").toList) = true ∧
    parseIntent (("stop haptic").toList) = some Intent.modeClose := by
  have hc : anyContains closeKeywords cmd = true := by
    unfold anyContains closeKeywords
    simp only [List.any_cons, List.any_nil, Bool.or_eq_true]
    tauto
  have hp : parseIntent cmd = some Intent.modeClose := by
    unfold parseIntent
    simp [hc]
  exact ⟨hp, fun n v => by simp [hp], by decide, by decide, by decide, by decide⟩

/-- Witness for C10 at the transcript stop haptic. -/
theorem stop_always_closes_witness :
    containsSub (("stop").toList) (("stop haptic").toList) = true ∧
    parseIntent (("stop haptic").toList) = some Intent.modeClose :=
  ⟨by decide, (stop_always_closes (("stop haptic").toList) (by decide)).1⟩

/-- C7 counterexample: the claim says every rule, the toggle rule
included, is tested by plain substring containment of its keywords;
at the transcript shaptic on the claim's parser dispatches a haptic
toggle (substring haptic occurs) while the code's parser dispatches
nothing (the word-boundary regex rejects shaptic), so the claim as
stated is false of the code. -/
theorem substr_toggle_claim_false :
    parseIntent (("shaptic on").toList) = none ∧
    claimSubstrParse (("shaptic on").toList) =
      some (Intent.toggle SettingName.haptic true) ∧
    anyContains (toggleKeywords SettingName.haptic) (("shaptic on").toList) = true ∧
    wbAny (toggleKeywords SettingName.haptic) (("shaptic on").toList) = false := by
  refine ⟨by decide, by decide, by decide, by decide⟩

/-- C7 amended: parsing is first-match-wins over the fixed priority
order close/home, navigation, text-read, settings, toggles, battery —
the four open/close rules and battery tested by substring containment
of any keyword in their sets, the toggle rule by word-boundary keyword
match plus modifier — and the transcript close settings dispatches the
close/home intent even though a settings keyword is also present. -/
theorem parse_first_match_priority :
    (∀ cmd, parseIntent cmd = prioritySpecParse cmd) ∧
    parseIntent (("close settings").toList) = some Intent.modeClose ∧
    anyContains settingsKeywords (("close settings").toList) = true := by
  refine ⟨?_, by decide, by decide⟩
  intro cmd
  unfold parseIntent prioritySpecParse
  cases h1 : anyContains closeKeywords cmd <;>
    cases h2 : anyContains navigationKeywords cmd <;>
    cases h3 : anyContains textReadKeywords cmd <;>
    cases h4 : anyContains settingsKeywords cmd <;>
    cases h5 : toggleMatch cmd <;>
    cases h6 : containsSub (("battery").toList) cmd <;>
    simp [firstSome]

/-! ## Claim C1 -/

/-- C1: from the listening state with `autoStart`, `speak("hello")`
suspends recognition (`recognition.stop`) and recognition restarts
exactly once, in the step processing the utterance's terminal event;
with two speak calls in quick succession the first call's promise
resolves already during the second call, flagged interrupted, and
recognition restarts zero times before — and exactly once after — the
second utterance's terminal event.  Both event sequences are
admissible. -/
theorem speak_suspends_then_resumes_once :
    (initState.isListening = true ∧ initState.autoStart = true) ∧
    (admSeq initState
        [VEvent.extSpeak ("hello"), VEvent.recEnd, VEvent.uttTerminal] = true ∧
     runEff initState [VEvent.extSpeak ("hello")] =
       [Effect.synthCancel, Effect.recStop, Effect.synthSpeak 0 ("hello")] ∧
     countStarts (runEff initState [VEvent.extSpeak ("hello"), VEvent.recEnd]) = 0 ∧
     runEff initState [VEvent.extSpeak ("hello"), VEvent.recEnd, VEvent.uttTerminal] =
       [Effect.synthCancel, Effect.recStop, Effect.synthSpeak 0 ("hello"),
        Effect.recStart, Effect.status ("Listening...") true,
        Effect.resolve 0 false] ∧
     countStarts (runEff initState
        [VEvent.extSpeak ("hello"), VEvent.recEnd, VEvent.uttTerminal]) = 1) ∧
    (admSeq initState
        [VEvent.extSpeak ("hello"), VEvent.extSpeak ("world"),
         VEvent.recEnd, VEvent.uttTerminal] = true ∧
     runEff initState [VEvent.extSpeak ("hello"), VEvent.extSpeak ("world")] =
       [Effect.synthCancel, Effect.recStop, Effect.synthSpeak 0 ("hello"),
        Effect.synthCancel, Effect.resolve 0 true, Effect.recStop,
        Effect.synthSpeak 1 ("world")] ∧
     countStarts (runEff initState
        [VEvent.extSpeak ("hello"), VEvent.extSpeak ("world"), VEvent.recEnd]) = 0 ∧
     runEff initState
        [VEvent.extSpeak ("hello"), VEvent.extSpeak ("world"),
         VEvent.recEnd, VEvent.uttTerminal] =
       [Effect.synthCancel, Effect.recStop, Effect.synthSpeak 0 ("hello"),
        Effect.synthCancel, Effect.resolve 0 true, Effect.recStop,
        Effect.synthSpeak 1 ("world"),
        Effect.recStart, Effect.status ("Listening...") true,
        Effect.resolve 1 false] ∧
     countStarts (runEff initState
        [VEvent.extSpeak ("hello"), VEvent.extSpeak ("world"),
         VEvent.recEnd, VEvent.uttTerminal]) = 1) := by
  decide

/-! ## Retry-counter lemmas (claim C2) -/

lemma count_armTimer (s : VCState) (k : TimerKind) :
    (armTimer s k).1.errorRetryCount = s.errorRetryCount := by
  simp [armTimer]

lemma count_le_onerror (s : VCState) (err : String) :
    s.errorRetryCount ≤ (onerrorHandler s err).1.errorRetryCount := by
  unfold onerrorHandler
  split_ifs <;> simp [armTimer]

lemma count_le_startListening (s : VCState) :
    s.errorRetryCount ≤ (startListening s).1.errorRetryCount := by
  unfold startListening
  dsimp only
  split_ifs <;>
    first
      | simpa using count_le_onerror (clearStored s) ("start-failed")
      | simp

lemma count_le_uttRun (s : VCState) (u : UttInfo) (b : Bool) :
    s.errorRetryCount ≤ (uttRun s u b).1.errorRetryCount := by
  unfold uttRun
  split_ifs
  · simpa using
      count_le_startListening (clearStored { s with isSpeaking := false })
  · simp

lemma count_le_cancelSynth (s : VCState) :
    s.errorRetryCount ≤ (cancelSynth s).1.errorRetryCount := by
  unfold cancelSynth
  split
  · simp
  · rename_i u heq
    simpa using count_le_uttRun { s with currentUtterance := none } u true

lemma count_le_speakHandler (s : VCState) (id : Nat) (t : String) :
    s.errorRetryCount ≤ (speakHandler s id t).1.errorRetryCount := by
  unfold speakHandler
  dsimp only
  split_ifs <;>
    first
      | simpa using count_le_cancelSynth s
      | simp

lemma count_le_speakAlloc (s : VCState) (t : String) :
    s.errorRetryCount ≤ (speakAlloc s t).1.errorRetryCount := by
  simpa [speakAlloc] using
    count_le_speakHandler { s with nextUttId := s.nextUttId + 1 } s.nextUttId t

lemma count_le_stopSpeaking (s : VCState) :
    s.errorRetryCount ≤ (stopSpeakingRun s).1.errorRetryCount := by
  unfold stopSpeakingRun
  split_ifs
  · exact count_le_cancelSynth s
  · simp

lemma count_le_dispatch (s : VCState) (i : Intent) :
    s.errorRetryCount ≤ (dispatchIntent s i).1.errorRetryCount := by
  cases i <;> unfold dispatchIntent <;> dsimp only <;> split <;>
    first
      | exact le_trans (count_le_stopSpeaking s)
          (count_le_speakAlloc (stopSpeakingRun s).1 _)
      | exact count_le_stopSpeaking s
      | exact count_le_speakAlloc s _
      | simp

lemma count_onend (s : VCState) :
    (onendHandler s).1.errorRetryCount = s.errorRetryCount := by
  unfold onendHandler
  dsimp only
  split_ifs <;> simp [armTimer]

lemma count_stopListening (s : VCState) :
    (stopListeningRun s).1.errorRetryCount = s.errorRetryCount := by
  simp [stopListeningRun]

/-! ## Listening-preservation lemmas (claim C2) -/

lemma startListening_of_listening (s : VCState) (h : s.isListening = true) :
    startListening s = (clearStored s, []) := by
  unfold startListening
  simp [h]

lemma uttRun_listening (s : VCState) (u : UttInfo) (b : Bool)
    (h : s.isListening = true) :
    (uttRun s u b).1.errorRetryCount = s.errorRetryCount ∧
    (uttRun s u b).1.isListening = true := by
  unfold uttRun
  dsimp only
  split_ifs
  · rw [startListening_of_listening _ (by simp [h])]
    simp [h]
  · simp [h]

lemma cancelSynth_listening (s : VCState) (h : s.isListening = true) :
    (cancelSynth s).1.errorRetryCount = s.errorRetryCount ∧
    (cancelSynth s).1.isListening = true := by
  unfold cancelSynth
  split
  · simp [h]
  · rename_i u heq
    simpa using uttRun_listening { s with currentUtterance := none } u true (by simp [h])

lemma speakHandler_listening (s : VCState) (id : Nat) (t : String)
    (h : s.isListening = true) :
    (speakHandler s id t).1.errorRetryCount = s.errorRetryCount ∧
    (speakHandler s id t).1.isListening = true := by
  have hc := cancelSynth_listening s h
  unfold speakHandler
  dsimp only
  split_ifs <;> simp [h, hc.1, hc.2, apply_ite]

lemma speakAlloc_listening (s : VCState) (t : String)
    (h : s.isListening = true) :
    (speakAlloc s t).1.errorRetryCount = s.errorRetryCount ∧
    (speakAlloc s t).1.isListening = true := by
  simpa [speakAlloc] using
    speakHandler_listening { s with nextUttId := s.nextUttId + 1 } s.nextUttId t (by simp [h])

lemma stopSpeaking_listening (s : VCState) (h : s.isListening = true) :
    (stopSpeakingRun s).1.errorRetryCount = s.errorRetryCount ∧
    (stopSpeakingRun s).1.isListening = true := by
  unfold stopSpeakingRun
  split_ifs
  · exact cancelSynth_listening s h
  · simp [h]

lemma dispatch_listening (s : VCState) (i : Intent) (h : s.isListening = true) :
    (dispatchIntent s i).1.errorRetryCount = s.errorRetryCount := by
  cases i <;> unfold dispatchIntent <;> dsimp only <;> split <;>
    first
      | (rw [(speakAlloc_listening (stopSpeakingRun s).1 _
              (stopSpeaking_listening s h).2).1]
         exact (stopSpeaking_listening s h).1)
      | exact (stopSpeaking_listening s h).1
      | exact (speakAlloc_listening s _ h).1
      | simp

/-! ## Claim C2 -/

/-- C2 counterexample: the claim that the retry counter resets only on
a successfully parsed transcript is false of the code — `onresult`
zeroes `errorRetryCount` before checking the transcript, so a result
event whose transcript is blank (nothing parsed) also resets it. -/
theorem retry_reset_without_parsed_transcript :
    ¬ (∀ (s : VCState) (t : Option String),
        s.errorRetryCount ≠ 0 →
        (step s (VEvent.recResult t)).1.errorRetryCount = 0 →
        ∃ raw, t = some raw ∧ normTranscript raw ≠ []) := by
  intro hclaim
  obtain ⟨raw, hraw, hne⟩ :=
    hclaim { initState with errorRetryCount := 3 } (some (" "))
      (by decide) (by decide)
  injection hraw with hraw
  subst hraw
  exact hne (by decide)

/-- C2 amended: the retry counter is zeroed by every recognition
result event delivered while listening, usable transcript or not; no
other event ever resets it (all other events preserve or increment
it), and every recoverable recognition error increments it by one, so
consecutive failures without a result event keep backing off. -/
theorem retry_reset_amended :
    (∀ (s : VCState) (t : Option String), s.isListening = true →
        (step s (VEvent.recResult t)).1.errorRetryCount = 0) ∧
    (∀ (s : VCState) (e : VEvent), isResultEv e = false →
        s.errorRetryCount ≤ (step s e).1.errorRetryCount) ∧
    (∀ (s : VCState) (err : String),
        ignoredErr err = false → fatalErr err = false →
        (step s (VEvent.recError err)).1.errorRetryCount = s.errorRetryCount + 1) := by
  refine ⟨?_, ?_, ?_⟩
  · intro s t h
    show (onresultHandler s t).1.errorRetryCount = 0
    unfold onresultHandler
    dsimp only
    cases t
    · simp
    · rename_i raw
      dsimp only
      split_ifs
      · simp
      · split
        · simp
        · rename_i i hi
          have hd := dispatch_listening { s with errorRetryCount := 0 } i (by simp [h])
          simp_all
  · intro s e he
    cases e
    case recResult t => simp [isResultEv] at he
    case extStart => exact count_le_startListening s
    case extStop => exact le_of_eq (count_stopListening s).symm
    case extSpeak t => exact count_le_speakAlloc s t
    case extUpdateAutoStart b => exact le_refl _
    case recEnd => exact le_of_eq (count_onend s).symm
    case recError err =>
      exact count_le_onerror { s with sessionErrored := true } err
    case timerFire =>
      simp only [step]
      split
      · exact le_refl _
      · rename_i p rest heq
        split
        · exact le_trans (by simp)
            (count_le_startListening { s with liveTimers := rest })
        · exact le_trans (by simp)
            (count_le_startListening
              { s with liveTimers := rest, isErrorRecovery := false })
    case uttTerminal =>
      simp only [step]
      split
      · exact le_refl _
      · rename_i u heq
        exact le_trans (by simp)
          (count_le_uttRun { s with currentUtterance := none } u false)
  · intro s err hi hf
    show (onerrorHandler _ err).1.errorRetryCount = _
    unfold ignoredErr at hi
    unfold fatalErr at hf
    simp only [Bool.or_eq_false_iff] at hi hf
    unfold onerrorHandler
    simp [hi.1, hi.2, hf.1.1, hf.1.2, hf.2, armTimer]

/-- Witness for C2's amended statement: a blank result while listening
resets the counter, `onend` does not reset it, and a network error
increments it. -/
theorem retry_reset_amended_witness :
    initState.isListening = true ∧
    (step { initState with errorRetryCount := 3 }
        (VEvent.recResult (some (" ")))).1.errorRetryCount = 0 ∧
    isResultEv VEvent.recEnd = false ∧
    ({ initState with errorRetryCount := 3 } : VCState).errorRetryCount ≤
      (step { initState with errorRetryCount := 3 } VEvent.recEnd).1.errorRetryCount ∧
    ignoredErr ("network") = false ∧ fatalErr ("network") = false ∧
    (step { initState with errorRetryCount := 3 }
        (VEvent.recError ("network"))).1.errorRetryCount =
      ({ initState with errorRetryCount := 3 } : VCState).errorRetryCount + 1 :=
  ⟨rfl,
   retry_reset_amended.1 { initState with errorRetryCount := 3 } (some (" ")) rfl,
   rfl,
   retry_reset_amended.2.1 { initState with errorRetryCount := 3 } VEvent.recEnd rfl,
   rfl, rfl,
   retry_reset_amended.2.2 { initState with errorRetryCount := 3 } ("network") rfl rfl⟩

/-! ## Timer-invariant lemmas (claim C5) -/

lemma inv_clearStored (s : VCState) (h : timerInv s) : timerInv (clearStored s) :=
  Or.inl (clearStored_live_of_inv s h)

lemma inv_armTimer (s : VCState) (k : TimerKind) (h : timerInv s) :
    timerInv (armTimer s k).1 := by
  have hl := clearStored_live_of_inv s h
  unfold armTimer
  dsimp only
  right
  exact ⟨((clearStored s).nextTimer, k), by simp [hl], rfl⟩

lemma inv_onerror (s : VCState) (err : String) (h : timerInv s) :
    timerInv (onerrorHandler s err).1 := by
  unfold onerrorHandler
  dsimp only
  split_ifs <;>
    first
      | simpa [timerInv] using h
      | exact inv_armTimer _ TimerKind.backoff (by simpa [timerInv] using h)

lemma inv_startListening (s : VCState) (h : timerInv s) :
    timerInv (startListening s).1 := by
  have hl := clearStored_live_of_inv s h
  unfold startListening
  dsimp only
  split_ifs
  · exact inv_onerror _ _ (inv_clearStored s h)
  · exact inv_clearStored s h
  · exact Or.inl (by simpa using hl)
  · exact inv_clearStored s h

lemma inv_uttRun (s : VCState) (u : UttInfo) (b : Bool) (h : timerInv s) :
    timerInv (uttRun s u b).1 := by
  unfold uttRun
  dsimp only
  split_ifs
  · exact inv_startListening _ (inv_clearStored _ (by simpa [timerInv] using h))
  · exact h

lemma inv_cancelSynth (s : VCState) (h : timerInv s) :
    timerInv (cancelSynth s).1 := by
  unfold cancelSynth
  split
  · exact h
  · rename_i u heq
    exact inv_uttRun { s with currentUtterance := none } u true
      (by simpa [timerInv] using h)

lemma inv_speakHandler (s : VCState) (id : Nat) (t : String) (h : timerInv s) :
    timerInv (speakHandler s id t).1 := by
  have hc := inv_cancelSynth s h
  unfold speakHandler
  dsimp only
  split_ifs <;>
    first
      | exact h
      | simpa [timerInv] using hc

lemma inv_speakAlloc (s : VCState) (t : String) (h : timerInv s) :
    timerInv (speakAlloc s t).1 :=
  inv_speakHandler { s with nextUttId := s.nextUttId + 1 } s.nextUttId t
    (by simpa [timerInv] using h)

lemma inv_stopSpeaking (s : VCState) (h : timerInv s) :
    timerInv (stopSpeakingRun s).1 := by
  unfold stopSpeakingRun
  split_ifs
  · exact inv_cancelSynth s h
  · exact h

lemma inv_dispatch (s : VCState) (i : Intent) (h : timerInv s) :
    timerInv (dispatchIntent s i).1 := by
  cases i <;> unfold dispatchIntent <;> dsimp only <;> split <;>
    first
      | exact inv_speakAlloc (stopSpeakingRun s).1 _ (inv_stopSpeaking s h)
      | exact inv_stopSpeaking s h
      | exact inv_speakAlloc s _ h
      | exact h

lemma inv_onresult (s : VCState) (t : Option String) (h : timerInv s) :
    timerInv (onresultHandler s t).1 := by
  have h0 : timerInv ({ s with errorRetryCount := 0 } : VCState) := by
    simpa [timerInv] using h
  unfold onresultHandler
  dsimp only
  cases t
  · exact h0
  · dsimp only
    split_ifs
    · exact h0
    · split
      · exact h0
      · exact inv_dispatch _ _ h0

lemma inv_onend (s : VCState) (h : timerInv s) :
    timerInv (onendHandler s).1 := by
  unfold onendHandler
  dsimp only
  split_ifs <;>
    first
      | simpa [timerInv] using h
      | exact inv_armTimer _ TimerKind.restart (by simpa [timerInv] using h)

lemma inv_stopListening (s : VCState) (h : timerInv s) :
    timerInv (stopListeningRun s).1 := by
  have hl := clearStored_live_of_inv s h
  unfold stopListeningRun
  dsimp only
  exact Or.inl (by simpa using hl)

lemma inv_step (s : VCState) (e : VEvent) (h : timerInv s) :
    timerInv (step s e).1 := by
  cases e
  case extStart => exact inv_startListening s h
  case extStop => exact inv_stopListening s h
  case extSpeak t => exact inv_speakAlloc s t h
  case extUpdateAutoStart b => exact (by simpa [timerInv] using h)
  case recEnd => exact inv_onend s h
  case recError err => exact inv_onerror _ err (by simpa [timerInv] using h)
  case recResult t => exact inv_onresult s t h
  case timerFire =>
    simp only [step]
    split
    · exact h
    · rename_i p rest heq
      have h1 : timerInv ({ s with liveTimers := rest } : VCState) := by
        rcases h with h | ⟨q, hl, hr⟩
        · rw [h] at heq; cases heq
        · rw [hl] at heq
          injection heq with hq hrest
          exact Or.inl hrest.symm
      split
      · exact inv_startListening _ h1
      · exact inv_startListening _ (by simpa [timerInv] using h1)
  case uttTerminal =>
    simp only [step]
    split
    · exact h
    · rename_i u heq
      exact inv_uttRun { s with currentUtterance := none } u false
        (by simpa [timerInv] using h)

lemma inv_runState (evs : List VEvent) :
    ∀ s, timerInv s → timerInv (runState s evs) := by
  induction evs with
  | nil => intro s h; exact h
  | cons e es ih => intro s h; exact ih _ (inv_step s e h)

/-! ## Claim C5 -/

/-- C5: after any event sequence from the initial state, at most one
retry/restart timer is pending — every arming site
(`recognition.onend` line 101 and `recognition.onerror` line 159)
clears the stored timer before arming, so arming always supersedes any
prior timer. -/
theorem at_most_one_pending_timer (evs : List VEvent) :
    (runState initState evs).liveTimers.length ≤ 1 := by
  have h := inv_runState evs initState (Or.inl rfl)
  rcases h with h | ⟨p, hl, _⟩
  · simp [h]
  · simp [hl]

/-! ## Claim C4 -/

lemma countStarts_append (a b : List Effect) :
    countStarts (a ++ b) = countStarts a + countStarts b :=
  List.countP_append _ _ _

/-- C4 counterexample: the claim that after a fatal error no
internally issued start ever recurs is false of the code.  If `speak`
suspended recognition (snapshot `wasListening = true`, lines 240-247)
and the still-active session then delivers the fatal `not-allowed`
error (which sets `autoStart = false` and arms nothing, lines
137-141), the session's own `onend` is suppressed by the recovery flag
(lines 96-98) — but the utterance's terminal handler (lines 250-257)
calls `startListening` unconditionally, and `startListening` never
consults `autoStart` (lines 285-298): the two purely internal events
after the fatal error issue exactly one `recognition.start()` and
leave the controller listening again. -/
theorem fatal_error_restarted_by_inflight_utterance :
    admSeq initState
      [VEvent.extSpeak ("hello"), VEvent.recError ("not-allowed"),
       VEvent.recEnd, VEvent.uttTerminal] = true ∧
    [VEvent.recEnd, VEvent.uttTerminal].all isInternal = true ∧
    (runState initState
      [VEvent.extSpeak ("hello"),
       VEvent.recError ("not-allowed")]).autoStart = false ∧
    countStarts
      (runEff (runState initState
          [VEvent.extSpeak ("hello"), VEvent.recError ("not-allowed")])
        [VEvent.recEnd, VEvent.uttTerminal]) = 1 ∧
    (runState initState
      [VEvent.extSpeak ("hello"), VEvent.recError ("not-allowed"),
       VEvent.recEnd, VEvent.uttTerminal]).isListening = true := by
  decide

/-- C4 amended: a fatal recognition error (`not-allowed`,
`service-not-allowed` or `audio-capture`) drops the listening flag,
sets `autoStart := false`, reports a single permanent status, issues
no start and arms no timer — and provided no retry timer was pending
and no in-flight utterance had suspended recognition, the resulting
state is permanently disabled: every admissible sequence of internal
events issues no `recognition.start()` and stays disabled, while an
external `updateConfig` re-enabling `autoStart` followed by an
external `start()` starts recognition again.  (The in-flight-utterance
proviso is forced by the counterexample above: such an utterance's
terminal handler restarts recognition internally.) -/
theorem fatal_disables_until_external_restart :
    (∀ (s : VCState) (e : String), fatalErr e = true →
        (step s (VEvent.recError e)).1.autoStart = false ∧
        (step s (VEvent.recError e)).1.isListening = false ∧
        (step s (VEvent.recError e)).1.liveTimers = s.liveTimers ∧
        countStarts (step s (VEvent.recError e)).2 = 0 ∧
        (∃ m, (step s (VEvent.recError e)).2 = [Effect.status m false]) ∧
        (s.liveTimers = [] →
          (s.currentUtterance.all fun u => !u.wasListening) = true →
          disabledInv (step s (VEvent.recError e)).1)) ∧
    (∀ (s : VCState) (evs : List VEvent), disabledInv s →
        evs.all isInternal = true → admSeq s evs = true →
        countStarts (runEff s evs) = 0 ∧ disabledInv (runState s evs)) ∧
    (∀ (s : VCState), disabledInv s → s.recAvailable = true →
        s.sessionActive = false →
        runEff s [VEvent.extUpdateAutoStart true, VEvent.extStart] =
          [Effect.recStart, Effect.status ("Listening...") true]) := by
  refine ⟨?_, ?_, ?_⟩
  · intro s e he
    have he' : e = ("not-allowed") ∨ e = ("service-not-allowed") ∨ e = ("audio-capture") := by
      simpa [fatalErr, or_assoc] using he
    rcases he' with he' | he' | he' <;> subst he' <;>
      exact ⟨rfl, rfl, rfl, rfl, ⟨_, rfl⟩, fun h1 h2 =>
        ⟨rfl, h1, rfl, h2, by simp only [Bool.or_eq_true]; exact Or.inr rfl⟩⟩
  · intro s evs
    induction evs generalizing s with
    | nil =>
      intro hdis _ _
      exact ⟨rfl, hdis⟩
    | cons e es ih =>
      intro hdis hint hadm
      simp only [List.all_cons, Bool.and_eq_true] at hint
      simp only [admSeq, Bool.and_eq_true] at hadm
      obtain ⟨hi, hint2⟩ := hint
      obtain ⟨hadm1, hadm2⟩ := hadm
      obtain ⟨hAuto, hLive, hLis, hUtt, hSess⟩ := hdis
      have hstep : countStarts (step s e).2 = 0 ∧ disabledInv (step s e).1 := by
        cases e
        case extStart => simp [isInternal] at hi
        case extStop => simp [isInternal] at hi
        case extSpeak t => simp [isInternal] at hi
        case extUpdateAutoStart b => simp [isInternal] at hi
        case recEnd =>
          show countStarts (onendHandler s).2 = 0 ∧ disabledInv (onendHandler s).1
          unfold onendHandler
          dsimp only
          split_ifs with hb1 hb2
          · exact ⟨by simp [countStarts], hAuto, hLive, rfl, hUtt, by simp⟩
          · exact absurd hb2 (by simp [hAuto])
          · exact ⟨by simp [countStarts], hAuto, hLive, rfl, hUtt, by simp⟩
        case recError err =>
          exfalso
          have hadm' : s.sessionActive = true ∧ s.sessionErrored = false := by
            simpa [admissible] using hadm1
          simp [hadm'.1, hadm'.2] at hSess
        case recResult t =>
          exfalso
          have hadm' : s.sessionActive = true ∧ s.sessionErrored = false := by
            simpa [admissible] using hadm1
          simp [hadm'.1, hadm'.2] at hSess
        case timerFire =>
          exfalso
          simp [admissible, hLive] at hadm1
        case uttTerminal =>
          simp only [step]
          split
          · exact ⟨by simp [countStarts], hAuto, hLive, hLis, hUtt, hSess⟩
          · rename_i u heq
            have hw : u.wasListening = false := by
              rw [heq] at hUtt
              simpa using hUtt
            unfold uttRun
            dsimp only
            split_ifs with hw2
            · rw [hw] at hw2; cases hw2
            · exact ⟨by simp [countStarts], hAuto, hLive, hLis, by simp, hSess⟩
      have hrest := ih (step s e).1 hstep.2 hint2 hadm2
      refine ⟨?_, hrest.2⟩
      show countStarts ((step s e).2 ++ runEff (step s e).1 es) = 0
      rw [countStarts_append, hstep.1, hrest.1]
  · intro s hdis hrec hsess
    obtain ⟨hAuto, hLive, hLis, hUtt, hSess⟩ := hdis
    show ([] : List Effect) ++
        ((startListening { s with autoStart := true }).2 ++ []) = _
    unfold startListening
    dsimp only
    rw [if_pos (by simp [hrec, hLis]), if_neg (by simp [hsess])]
    rfl

/-- Witness for C4: the fatal permission error from the listening
state, one internal session-end event after it, then the external
reconfiguration and restart. -/
theorem fatal_disables_witness :
    fatalErr ("not-allowed") = true ∧
    (step initState (VEvent.recError ("not-allowed"))).1.autoStart = false ∧
    disabledInv (step initState (VEvent.recError ("not-allowed"))).1 ∧
    countStarts (runEff (step initState (VEvent.recError ("not-allowed"))).1
      [VEvent.recEnd]) = 0 ∧
    runEff (runState (step initState (VEvent.recError ("not-allowed"))).1
        [VEvent.recEnd])
      [VEvent.extUpdateAutoStart true, VEvent.extStart] =
      [Effect.recStart, Effect.status ("Listening...") true] := by
  have h := fatal_disables_until_external_restart
  have hfat : fatalErr ("not-allowed") = true := by decide
  have ha := h.1 initState ("not-allowed") hfat
  have hdis : disabledInv (step initState (VEvent.recError ("not-allowed"))).1 :=
    ha.2.2.2.2.2 (by decide) (by decide)
  have hb := h.2.1 (step initState (VEvent.recError ("not-allowed"))).1
    [VEvent.recEnd] hdis (by decide) (by decide)
  have hc := h.2.2 (runState (step initState (VEvent.recError ("not-allowed"))).1
      [VEvent.recEnd]) hb.2 (by decide) (by decide)
  exact ⟨hfat, ha.1, hdis, hb.1, hc⟩

end Argus
